import Mathlib

/-!
Verification of the retrieval-augmented diet-plan generator (`logic.py`).

The development shallowly embeds the core module: the query composer, the
retriever, the prompt assembler, the generation client and the orchestrator
`get_diet_plan`.  External collaborators (embedding provider, knowledge
store, generative backend) are modelled as function parameters returning
`Except`, so that a raised exception is an `Except.error` and a normal
return is `Except.ok`.  The standard-library JSON routines used by the code
(`json.loads`, `json.dumps`) are modelled by executable functions over an
inductive `Json` type covering the fragment the program exchanges
(objects, arrays, strings without unicode escapes, integer numerals,
booleans, null).
-/

namespace Babayogi

/-- JSON values, as produced by the host language json module, restricted
to integer numerals; this fragment covers every literal the program and
its error objects exchange. -/
inductive Json where
  | null : Json
  | bool (b : Bool) : Json
  | num (n : Int) : Json
  | str (s : String) : Json
  | arr (elems : List Json) : Json
  | obj (members : List (String × Json)) : Json

/-- JSON whitespace characters, as accepted between tokens by json.loads. -/
def isJsonWs (c : Char) : Bool :=
  c = ' ' || c = '\t' || c = '\n' || c = '\r'

/-- Drop leading JSON whitespace. -/
def skipWs : List Char → List Char
  | [] => []
  | c :: rest => if isJsonWs c then skipWs rest else c :: rest

/-- Decoding of a single-character escape sequence inside a JSON string
literal (unicode escapes are outside the modelled fragment). -/
def escChar (c : Char) : Option Char :=
  if c = '"' then some '"'
  else if c = '\\' then some '\\'
  else if c = '/' then some '/'
  else if c = 'n' then some '\n'
  else if c = 't' then some '\t'
  else if c = 'r' then some '\r'
  else if c = 'b' then some (Char.ofNat 8)
  else if c = 'f' then some (Char.ofNat 12)
  else none

/-- Parse the body of a JSON string literal, after the opening quote;
returns the decoded characters and the remaining input. -/
def parseStringBody : List Char → Option (List Char × List Char)
  | [] => none
  | c :: rest =>
    if c = '"' then some ([], rest)
    else if c = '\\' then
      match rest with
      | [] => none
      | e :: rest2 =>
        match escChar e, parseStringBody rest2 with
        | some ec, some (s, r) => some (ec :: s, r)
        | _, _ => none
    else
      match parseStringBody rest with
      | some (s, r) => some (c :: s, r)
      | none => none

/-- Numeric value of a list of decimal digit characters. -/
def digitsToNat (ds : List Char) : Nat :=
  ds.foldl (fun a c => a * 10 + (c.toNat - 48)) 0

/-- Parse an integer numeral (optional leading minus sign). -/
def parseIntTok (s : List Char) : Option (Int × List Char) :=
  match s with
  | '-' :: rest =>
    let ds := rest.takeWhile (fun c => c.isDigit)
    if ds.isEmpty then none
    else some (-(digitsToNat ds : Int), rest.drop ds.length)
  | _ =>
    let ds := s.takeWhile (fun c => c.isDigit)
    if ds.isEmpty then none
    else some ((digitsToNat ds : Int), s.drop ds.length)

/-- The opening brace character. -/
def openBrace : Char := Char.ofNat 123

/-- The closing brace character. -/
def closeBrace : Char := Char.ofNat 125

mutual

/-- Parse a JSON value; the fuel argument bounds recursion depth and is
chosen large enough for the whole input in `json_loads`. -/
def parseValue : Nat → List Char → Option (Json × List Char)
  | 0, _ => none
  | Nat.succ fuel, s =>
    match skipWs s with
    | [] => none
    | 'n' :: 'u' :: 'l' :: 'l' :: r => some (Json.null, r)
    | 't' :: 'r' :: 'u' :: 'e' :: r => some (Json.bool true, r)
    | 'f' :: 'a' :: 'l' :: 's' :: 'e' :: r => some (Json.bool false, r)
    | c :: r =>
      if c = '"' then
        match parseStringBody r with
        | some (cs, r2) => some (Json.str (String.mk cs), r2)
        | none => none
      else if c = '[' then
        match skipWs r with
        | ']' :: r2 => some (Json.arr [], r2)
        | _ =>
          match parseElems fuel r with
          | some (es, r2) => some (Json.arr es, r2)
          | none => none
      else if c = openBrace then
        match skipWs r with
        | c2 :: r2 =>
          if c2 = closeBrace then some (Json.obj [], r2)
          else
            match parseMembers fuel r with
            | some (ms, r3) => some (Json.obj ms, r3)
            | none => none
        | [] => none
      else
        match parseIntTok (c :: r) with
        | some (n, r2) => some (Json.num n, r2)
        | none => none

/-- Parse the comma-separated elements of a JSON array, up to and
including the closing bracket. -/
def parseElems : Nat → List Char → Option (List Json × List Char)
  | 0, _ => none
  | Nat.succ fuel, s =>
    match parseValue fuel s with
    | some (v, r) =>
      (match skipWs r with
       | ',' :: r2 =>
         (match parseElems fuel r2 with
          | some (es, r3) => some (v :: es, r3)
          | none => none)
       | ']' :: r2 => some ([v], r2)
       | _ => none)
    | none => none

/-- Parse the comma-separated members of a JSON object, up to and
including the closing brace. -/
def parseMembers : Nat → List Char → Option (List (String × Json) × List Char)
  | 0, _ => none
  | Nat.succ fuel, s =>
    match skipWs s with
    | [] => none
    | c :: r =>
      if c = '"' then
        match parseStringBody r with
        | some (key, r2) =>
          (match skipWs r2 with
           | ':' :: r3 =>
             (match parseValue fuel r3 with
              | some (v, r4) =>
                (match skipWs r4 with
                 | ',' :: r5 =>
                   (match parseMembers fuel r5 with
                    | some (ms, r6) => some ((String.mk key, v) :: ms, r6)
                    | none => none)
                 | c2 :: r5 =>
                   if c2 = closeBrace then some ([(String.mk key, v)], r5)
                   else none
                 | [] => none)
              | none => none)
           | _ => none)
        | none => none
      else none

end

/-- Model of json.loads: parse one JSON document, requiring that only
whitespace follows it; any parse failure yields none (the exception the
library would raise). -/
def json_loads (s : String) : Option Json :=
  match parseValue (s.data.length + 1) s.data with
  | some (j, r) => if (skipWs r).isEmpty then some j else none
  | none => none

/-! Python string primitives used by the module. -/

/-- Whitespace characters removed by the str.strip method (ASCII range). -/
def isPySpace (c : Char) : Bool :=
  c = ' ' || c = '\t' || c = '\n' || c = '\r' || c = Char.ofNat 11 || c = Char.ofNat 12

/-- Model of str.strip with no argument: remove leading and trailing
whitespace. -/
def pyStrip (s : List Char) : List Char :=
  ((s.dropWhile isPySpace).reverse.dropWhile isPySpace).reverse

/-- Whether the second list begins with the first one. -/
def startsWith : List Char → List Char → Bool
  | [], _ => true
  | _ :: _, [] => false
  | p :: ps, c :: cs => (p == c) && startsWith ps cs

/-- Worker for `pyDeleteAll`: scans left to right; a positive skip count
records characters of an already matched occurrence still to be consumed
without being emitted. -/
def pyDeleteAllAux (pat : List Char) : Nat → List Char → List Char
  | _, [] => []
  | Nat.succ k, _ :: rest => pyDeleteAllAux pat k rest
  | 0, c :: rest =>
    if startsWith pat (c :: rest) && decide (0 < pat.length) then
      pyDeleteAllAux pat (pat.length - 1) rest
    else
      c :: pyDeleteAllAux pat 0 rest

/-- Model of str.replace with an empty replacement: delete every
non-overlapping occurrence of the pattern, scanning left to right. -/
def pyDeleteAll (pat s : List Char) : List Char :=
  pyDeleteAllAux pat 0 s

/-- Model of str.capitalize: first character upper-cased, the rest
lower-cased. -/
def pyCapitalize (s : String) : String :=
  match s.data with
  | [] => ""
  | c :: rest => String.mk (c.toUpper :: rest.map Char.toLower)

/-! Data model, mirroring the request schema of `main.py` that produces
the payload dictionary consumed by `logic.py`. -/

/-- Scores of the three fixed dosha keys; the payload dictionary holds
them in declaration order vata, pitta, kapha. -/
structure DoshaScores where
  vata : Int
  pitta : Int
  kapha : Int

/-- Constitution profile: baseline and current dosha scores. -/
structure Profile where
  prakriti : DoshaScores
  vikriti : DoshaScores

/-- Digestive state of the user. -/
structure Health where
  agni : String
  ama : String

/-- Dietary preferences of the user. -/
structure DietPreferences where
  dietType : String
  allergies : List String
  cuisine : List String

/-- Environmental context of the user. -/
structure EnvironmentInfo where
  season : String

/-- Health goals of the user. -/
structure Goals where
  primaryGoal : String

/-- The full request payload passed to `get_diet_plan`. -/
structure DietRequest where
  profile : Profile
  health : Health
  dietPreferences : DietPreferences
  environment : EnvironmentInfo
  goals : Goals

/-- Metadata of one knowledge-store record, with the three fields the
module reads; each is optional because the code accesses the first two
with dict.get, and the allergen field only through the store filter. -/
structure FoodMetadata where
  dishName : Option String
  category : Option String
  allergenInfo : Option String

/-- One match returned by the knowledge-store query: an opaque similarity
score together with the record metadata. -/
structure QueryMatch (Score : Type) where
  score : Score
  metadata : FoodMetadata

/-! The retriever (`_retrieve_suitable_foods_from_pinecone`). -/

/-- Metadata filter built from the allergy list: the code leaves the
filter dictionary empty (here none) when the list is empty, and otherwise
requires the Allergen Info field to be outside the list (here some). -/
def metadataFilter (allergies : List String) : Option (List String) :=
  if allergies.isEmpty then none else some allergies

/-- The key the builtin max with a dict.get key function returns on the
vikriti dictionary: iterating vata, pitta, kapha, a later key replaces the
current best only on a strictly greater score. -/
def pyMaxDosha (v : DoshaScores) : String :=
  if v.pitta > v.vata then
    (if v.kapha > v.pitta then ("kapha") else ("pitta"))
  else
    (if v.kapha > v.vata then ("kapha") else ("vata"))

/-- The semantic search query string built from the payload, including
the cuisine clause exactly when the cuisine list is non-empty. -/
def searchQuery (p : DietRequest) : String :=
  let primary_vikriti := pyMaxDosha p.profile.vikriti
  let base :=
    ("A healing food to pacify a ") ++ primary_vikriti ++
    (" imbalance for a person whose goal is to \x27") ++ p.goals.primaryGoal ++
    ("\x27. The food should be suitable for \x27") ++ p.health.agni ++
    ("\x27 digestion during the ") ++ p.environment.season ++ (" season.")
  if p.dietPreferences.cuisine.isEmpty then base
  else
    base ++ (" The person is accustomed to and prefers ") ++
    String.intercalate (", ") p.dietPreferences.cuisine ++ (" cuisine.")

/-- The retriever: builds the filter and the query, obtains the embedding
(outside the try block, so an encoding error propagates), then queries the
knowledge store inside the try block, mapping any store error to an empty
list and otherwise projecting the matches to their metadata. -/
def retrieveSuitableFoods {V S E : Type} (encode : String → Except E V)
    (ksQuery : V → Nat → Option (List String) → Except E (List (QueryMatch S)))
    (p : DietRequest) (top_k : Nat) : Except E (List FoodMetadata) :=
  let filt := metadataFilter p.dietPreferences.allergies
  let q := searchQuery p
  match encode q with
  | Except.error e => Except.error e
  | Except.ok v =>
    match ksQuery v top_k filt with
    | Except.ok ms => Except.ok (ms.map (fun m => m.metadata))
    | Except.error _ => Except.ok []

/-! The generation client (`_generate_guidelines_with_gemini`). -/

/-- The error object returned on any generation or parse failure. -/
def genErrorObj : Json :=
  Json.obj [(("error"), Json.str ("Failed to generate guidelines from the AI model."))]

/-- Normalization of the backend response before parsing: strip, delete
every occurrence of the json code-fence opener, delete every occurrence of
the bare fence, strip again. -/
def normalizeResponse (s : String) : String :=
  String.mk (pyStrip (pyDeleteAll (("```").data) (pyDeleteAll (("```json").data) (pyStrip s.data))))

/-- The generation client: one backend call; on an invocation error or a
parse failure of the normalized text it returns the fixed error object
instead of raising. -/
def generateGuidelines {E : Type} (generate : String → Except E String)
    (prompt : String) : Json :=
  match generate prompt with
  | Except.error _ => genErrorObj
  | Except.ok t =>
    match json_loads (normalizeResponse t) with
    | some j => j
    | none => genErrorObj

/-! Prompt assembly inside `get_diet_plan`. -/

/-- The vikriti dictionary as an item list, in key declaration order. -/
def vikritiItems (v : DoshaScores) : List (String × Int) :=
  [(("vata"), v.vata), (("pitta"), v.pitta), (("kapha"), v.kapha)]

/-- Insertion step of a stable descending sort by score: the new item
goes before the first existing item with a score not above its own. -/
def insertDescByScore (x : String × Int) : List (String × Int) → List (String × Int)
  | [] => [x]
  | y :: ys => if y.2 > x.2 then y :: insertDescByScore x ys else x :: y :: ys

/-- Model of the builtin sorted with a score key and reverse order:
stable, descending by score. -/
def pySortedDesc : List (String × Int) → List (String × Int)
  | [] => []
  | x :: xs => insertDescByScore x (pySortedDesc xs)

/-- The capitalized primary dosha computed by the prompt assembler. -/
def primaryDosha (v : DoshaScores) : String :=
  pyCapitalize (pyMaxDosha v)

/-- The secondary dosha list computed by the prompt assembler: sort the
items by descending score, keep those whose key differs from the
capitalized primary, and capitalize the kept keys.  The comparison is
between a lower-case key and the capitalized primary, exactly as in the
source. -/
def secondaryDoshas (v : DoshaScores) : List String :=
  ((pySortedDesc (vikritiItems v)).filter
      (fun ds => ds.1 != primaryDosha v)).map (fun ds => pyCapitalize ds.1)

/-- Escape of one character inside a dumped JSON string, for the
character range the program exchanges. -/
def pyJsonEscape (c : Char) : List Char :=
  if c = '"' then ['\\', '"']
  else if c = '\\' then ['\\', '\\']
  else if c = '\n' then ['\\', 'n']
  else if c = '\t' then ['\\', 't']
  else if c = '\r' then ['\\', 'r']
  else [c]

/-- Model of json.dumps on a string. -/
def pyJsonDumpStr (s : String) : String :=
  ("\"") ++ String.mk (s.data.map pyJsonEscape).flatten ++ ("\"")

/-- Model of json.dumps on a list of strings (default separators). -/
def pyJsonDumpStrList (xs : List String) : String :=
  ("[") ++ String.intercalate (", ") (xs.map pyJsonDumpStr) ++ ("]")

/-- Rendering of an optional string value inside the dumped inspiration
list: absent metadata fields were fetched with dict.get and dump as null. -/
def dumpOptStr : Option String → String
  | some s => pyJsonDumpStr s
  | none => ("null")

/-- One item of the inspiration list as json.dumps renders it with a two
space indent. -/
def dumpInspirationItem (m : FoodMetadata) : String :=
  ("  \x7b\n    \"name\": ") ++ dumpOptStr m.dishName ++
  (",\n    \"category\": ") ++ dumpOptStr m.category ++ ("\n  \x7d")

/-- The inspiration list as json.dumps renders it with a two space
indent. -/
def dumpInspirationList (l : List FoodMetadata) : String :=
  if l.isEmpty then ("[]")
  else ("[\n") ++ String.intercalate (",\n") (l.map dumpInspirationItem) ++ ("\n]")

/-- The rendered allergies value of the profile section: the joined list,
or the literal None when the list is empty. -/
def allergiesRendered (allergies : List String) : String :=
  if allergies.isEmpty then ("None") else String.intercalate (", ") allergies

/-- Prompt text up to and including the secondary imbalances line. -/
def promptIntro (p : DietRequest) : String :=
  ("\n        You are an expert Ayurvedic consultant. Your task is to generate a comprehensive, personalized wellness guide based on the user\x27s profile.\n        The output MUST be a single, valid JSON object conforming to the specified structure. Do not include any text outside the JSON object.\n\n        **USER PROFILE:**\n        - Primary Imbalance (Vikriti): ")
  ++ primaryDosha p.profile.vikriti
  ++ ("\n        - Secondary Imbalances: ")
  ++ String.intercalate (", ") (secondaryDoshas p.profile.vikriti)
  ++ ("\n")

/-- The allergies line of the prompt. -/
def allergiesLine (p : DietRequest) : String :=
  ("        - Allergies: ") ++ allergiesRendered p.dietPreferences.allergies ++ ("\n")

/-- The dietary preference line of the prompt. -/
def dietTypeLine (p : DietRequest) : String :=
  ("        - Dietary Preference: ") ++ p.dietPreferences.dietType ++ ("\n")

/-- The cuisine preference line of the prompt; the joined list renders as
the empty value when the cuisine list is empty. -/
def cuisineLine (p : DietRequest) : String :=
  ("        - Cuisine Preference (Satmaya): ")
  ++ String.intercalate (", ") p.dietPreferences.cuisine ++ ("\n")

/-- Prompt text from the inspiration section to the end, including the
literal JSON skeleton the backend is asked to fill. -/
def promptTail (p : DietRequest) (foods : List FoodMetadata) : String :=
  ("\n        **RECOMMENDED FOODS FOR INSPIRATION:**\n        Base your \"can_eat\" suggestions on this list of foods, which have been pre-selected as highly suitable for the user from our expert database. Distribute them into the correct categories.\n        - ")
  ++ dumpInspirationList foods
  ++ ("\n\n        **INSTRUCTIONS:**\n        1.  Analyze the user profile to determine the dominant dosha and overall health picture.\n        2.  Populate every field in the provided JSON structure with logical, expert Ayurvedic advice.\n        3.  The \"food_guidelines\" must contain specific lists for \"can_eat\" and \"avoid\". Use the inspiration list for the \"can_eat\" sections.\n        4.  All \"notes\" fields should contain concise, actionable advice.\n        5.  The \"dosha_alerts\" should provide specific warnings related to the user\x27s imbalances.\n\n        **JSON OUTPUT STRUCTURE (Strict):**\n        \x7b\n          \"# Inside the prompt string in get_diet_plan\n          \"user_profile\": \x7b\n            \"dosha\": \"")
  ++ primaryDosha p.profile.vikriti
  ++ ("-dominant\",\n            \"secondary_doshas\": ")
  ++ pyJsonDumpStrList (secondaryDoshas p.profile.vikriti)
  ++ (",\n            \"allergies\": ")
  ++ pyJsonDumpStrList p.dietPreferences.allergies
  ++ (",\n            \"preferences\": [\"")
  ++ p.dietPreferences.dietType
  ++ ("\"],\n            \"cuisine\": ")
  ++ pyJsonDumpStrList p.dietPreferences.cuisine
  ++ ("\n          \x7d,\n          \"food_guidelines\": \x7b \"grains\": \x7b \"can_eat\": [], \"avoid\": [], \"notes\": \"\" \x7d, \"vegetables\": \x7b \"can_eat\": [], \"avoid\": [], \"notes\": \"\" \x7d, \"fruits\": \x7b \"can_eat\": [], \"avoid\": [], \"notes\": \"\" \x7d, \"proteins\": \x7b \"can_eat\": [], \"avoid\": [], \"notes\": \"\" \x7d, \"dairy\": \x7b \"can_eat\": [], \"avoid\": [], \"notes\": \"\" \x7d, \"spices\": \x7b \"can_use\": [], \"avoid\": [], \"notes\": \"\" \x7d, \"beverages\": \x7b \"can_drink\": [], \"avoid\": [] \x7d \x7d,\n          \"nutrient_guidelines\": \x7b \"carbohydrates\": \x7b \"suggested_range_percent\": \"40-50%\", \"notes\": \"\" \x7d, \"proteins\": \x7b \"suggested_range_percent\": \"20-25%\", \"notes\": \"\" \x7d, \"fats\": \x7b \"suggested_range_percent\": \"20-25%\", \"notes\": \"\" \x7d, \"hydration\": \x7b \"water_intake_liters\": \"2-3\", \"notes\": \"\" \x7d \x7d,\n          \"meal_timing\": \x7b \"breakfast\": \"7-9 AM\", \"lunch\": \"12-2 PM (main meal)\", \"snack\": \"3-4 PM\", \"dinner\": \"6-8 PM (light meal)\", \"notes\": \"\" \x7d,\n          \"portion_guidelines\": \x7b \"grains\": \"1-2 cups cooked per meal\", \"vegetables\": \"1-2 cups per meal\", \"fruits\": \"1 serving per snack\", \"proteins\": \"½-1 cup cooked legumes per meal\", \"fats\": \"1-2 tsp per meal\" \x7d,\n          \"lifestyle_recommendations\": \x7b \"exercise\": \"\", \"sleep\": \"\", \"mental_health\": \"\", \"detox\": \"\" \x7d,\n          \"dosha_alerts\": [ \x7b \"dosha\": \"Kapha\", \"alert\": \"\" \x7d, \x7b \"dosha\": \"Vata\", \"alert\": \"\" \x7d, \x7b \"dosha\": \"Pitta\", \"alert\": \"\" \x7d ],\n          \"flexibility_options\": \x7b \"food_rotation\": \"\", \"seasonal_adjustments\": \"\", \"spice_variations\": \"\" \x7d\n        \x7d\n        ")

/-- The assembled generation prompt, built once per call from the payload
and the retrieved candidate list. -/
def buildPrompt (p : DietRequest) (foods : List FoodMetadata) : String :=
  promptIntro p ++ allergiesLine p ++ dietTypeLine p ++ cuisineLine p ++ promptTail p foods

/-! The orchestrator (`get_diet_plan`). -/

/-- The error object returned when retrieval yields no candidate. -/
def retrievalErrorObj : Json :=
  Json.obj
    [(("error"), Json.str ("Could not find suitable foods.")),
     (("message"), Json.str ("Based on your specific profile and allergies, we couldn\x27t find any recommended foods in our database."))]

/-- The orchestrator: retrieve with the default top 15, short-circuit to
the retrieval error object on an empty candidate list, otherwise assemble
the prompt and return whatever the generation client produces. -/
def get_diet_plan {V S E : Type} (encode : String → Except E V)
    (ksQuery : V → Nat → Option (List String) → Except E (List (QueryMatch S)))
    (generate : String → Except E String)
    (p : DietRequest) : Except E Json :=
  match retrieveSuitableFoods encode ksQuery p 15 with
  | Except.error e => Except.error e
  | Except.ok suitable_foods =>
    if suitable_foods.isEmpty then Except.ok retrievalErrorObj
    else Except.ok (generateGuidelines generate (buildPrompt p suitable_foods))

/-! Specification-side definitions, written from the wording of the
specification, to be compared with the embedded code. -/

/-- Whether a candidate satisfies the metadata filter, assuming the
knowledge store honors the not-in-list semantics of the filter; an absent
filter restricts nothing. -/
def satisfiesFilter (filt : Option (List String)) (m : FoodMetadata) : Bool :=
  match filt with
  | none => true
  | some l =>
    match m.allergenInfo with
    | some a => !(l.contains a)
    | none => true

/-- Written from the spec: the query composer as a function of exactly
the primary imbalance, the primary goal, the agni state, the season, and
the cuisine list, with the cuisine clause appended exactly when the list
is non-empty. -/
def spec_queryOfFields (primary goal agni season : String)
    (cuisine : List String) : String :=
  let base :=
    ("A healing food to pacify a ") ++ primary ++
    (" imbalance for a person whose goal is to \x27") ++ goal ++
    ("\x27. The food should be suitable for \x27") ++ agni ++
    ("\x27 digestion during the ") ++ season ++ (" season.")
  if cuisine.isEmpty then base
  else
    base ++ (" The person is accustomed to and prefers ") ++
    String.intercalate (", ") cuisine ++ (" cuisine.")

/-- Written from the spec: an error object is a mapping with an error key
and at most an additional message key. -/
def spec_isErrorObject (j : Json) : Bool :=
  match j with
  | Json.obj kvs =>
    (kvs.lookup ("error")).isSome &&
    kvs.all (fun kv => kv.1 == ("error") || kv.1 == ("message"))
  | _ => false

/-- The eight top-level sections of the result schema. -/
def spec_resultSections : List String :=
  [("user_profile"), ("food_guidelines"), ("nutrient_guidelines"),
   ("meal_timing"), ("portion_guidelines"), ("lifestyle_recommendations"),
   ("dosha_alerts"), ("flexibility_options")]

/-- Written from the spec: a structured plan is a mapping holding every
named section, each a sub-mapping (the dosha alerts section an array). -/
def spec_conformsResultSchema (j : Json) : Bool :=
  match j with
  | Json.obj kvs =>
    spec_resultSections.all (fun k =>
      match kvs.lookup k with
      | some (Json.obj _) => true
      | some (Json.arr _) => k == ("dosha_alerts")
      | _ => false)
  | _ => false

/-- Lookup of a key in a JSON value, none when the value is not a
mapping. -/
def jsonLookup (j : Json) (k : String) : Option Json :=
  match j with
  | Json.obj kvs => kvs.lookup k
  | _ => none

/-! Helper lemmas about the string primitives. -/

theorem str_data_append (a b : String) : (a ++ b).data = a.data ++ b.data := by
  obtain ⟨la⟩ := a
  obtain ⟨lb⟩ := b
  rfl

theorem str_assoc (a b c : String) : (a ++ b) ++ c = a ++ (b ++ c) := by
  obtain ⟨la⟩ := a
  obtain ⟨lb⟩ := b
  obtain ⟨lc⟩ := c
  show String.mk ((la ++ lb) ++ lc) = String.mk (la ++ (lb ++ lc))
  rw [List.append_assoc]

theorem pyDeleteAllAux_skip (pat : List Char) (l t : List Char) :
    pyDeleteAllAux pat l.length (l ++ t) = pyDeleteAllAux pat 0 t := by
  induction l with
  | nil => rfl
  | cons c l ih => exact ih

theorem startsWith_append_self (p t : List Char) : startsWith p (p ++ t) = true := by
  induction p with
  | nil => rfl
  | cons c p ih => simp [startsWith, ih]

theorem pyDeleteAllAux_head_match (pat : List Char) (hne : pat ≠ []) (t : List Char) :
    pyDeleteAllAux pat 0 (pat ++ t) = pyDeleteAllAux pat 0 t := by
  cases pat with
  | nil => exact absurd rfl hne
  | cons c ps =>
    have hsw : startsWith (c :: ps) (c :: (ps ++ t)) = true :=
      startsWith_append_self (c :: ps) t
    have hskip : pyDeleteAllAux (c :: ps) ((c :: ps).length - 1) (ps ++ t)
        = pyDeleteAllAux (c :: ps) 0 t := by
      simp only [List.length_cons, Nat.add_sub_cancel]
      exact pyDeleteAllAux_skip (c :: ps) ps t
    show pyDeleteAllAux (c :: ps) 0 (c :: (ps ++ t)) = _
    simp only [pyDeleteAllAux, hsw]
    simp
    exact pyDeleteAllAux_skip (c :: ps) ps t

theorem pyDeleteAllAux_emit (pat : List Char) (hp : pat.head? = some (Char.ofNat 96))
    (l t : List Char) (hl : ∀ c ∈ l, c ≠ Char.ofNat 96) :
    pyDeleteAllAux pat 0 (l ++ t) = l ++ pyDeleteAllAux pat 0 t := by
  induction l with
  | nil => rfl
  | cons c l ih =>
    have hc : c ≠ Char.ofNat 96 := hl c (by simp)
    have hsw : startsWith pat (c :: (l ++ t)) = false := by
      cases pat with
      | nil => simp at hp
      | cons p ps =>
        have hpc : p = Char.ofNat 96 := by simpa using hp
        simp only [startsWith, Bool.and_eq_false_iff]
        left
        simp [hpc]
        exact fun h => hc h.symm
    show pyDeleteAllAux pat 0 (c :: (l ++ t)) = _
    simp only [pyDeleteAllAux, hsw, Bool.false_and, List.cons_append]
    rw [ih (fun x hx => hl x (by simp [hx]))]
    simp

theorem pyDeleteAllAux_id (pat : List Char) (hp : pat.head? = some (Char.ofNat 96))
    (l : List Char) (hl : ∀ c ∈ l, c ≠ Char.ofNat 96) :
    pyDeleteAllAux pat 0 l = l := by
  have h0 : pyDeleteAllAux pat 0 ([] : List Char) = [] := rfl
  have := pyDeleteAllAux_emit pat hp l [] hl
  simpa [h0] using this

theorem pyStrip_cons_ws (a : Char) (ha : isPySpace a = true) (l : List Char) :
    pyStrip (a :: l) = pyStrip l := by
  unfold pyStrip
  rw [List.dropWhile_cons]
  simp [ha]

theorem pyStrip_append_ws (a : Char) (ha : isPySpace a = true) (l : List Char) :
    pyStrip (l ++ [a]) = pyStrip l := by
  unfold pyStrip
  rw [List.dropWhile_append]
  cases hE : (List.dropWhile isPySpace l).isEmpty with
  | true =>
    have hnil := List.isEmpty_iff.mp hE
    have hd : List.dropWhile isPySpace [a] = [] := by
      rw [List.dropWhile_cons]
      simp [ha]
    simp [hd, hnil]
  | false =>
    simp only [Bool.false_eq_true, if_false]
    rw [List.reverse_append, List.reverse_singleton, List.singleton_append,
      List.dropWhile_cons]
    simp [ha]

theorem pyStrip_no_ws_ends (a b : Char) (l : List Char)
    (ha : isPySpace a = false) (hb : isPySpace b = false) :
    pyStrip (a :: (l ++ [b])) = a :: (l ++ [b]) := by
  unfold pyStrip
  rw [List.dropWhile_cons]
  simp only [ha, Bool.false_eq_true, if_false]
  rw [show (a :: (l ++ [b])).reverse = b :: (l.reverse ++ [a]) by simp]
  rw [List.dropWhile_cons]
  simp only [hb, Bool.false_eq_true, if_false]
  simp

theorem pyStrip_mem (l : List Char) (c : Char) (hc : c ∈ pyStrip l) : c ∈ l := by
  unfold pyStrip at hc
  rw [List.mem_reverse] at hc
  have h1 := (List.dropWhile_sublist (l := (l.dropWhile isPySpace).reverse) isPySpace).mem hc
  rw [List.mem_reverse] at h1
  exact (List.dropWhile_sublist isPySpace).mem h1

theorem dropWhile_head_false (p : Char → Bool) (l : List Char) (a : Char) (t : List Char)
    (h : List.dropWhile p l = a :: t) : p a = false := by
  induction l with
  | nil => simp at h
  | cons x xs ih =>
    rw [List.dropWhile_cons] at h
    by_cases hp : p x
    · rw [if_pos hp] at h
      exact ih h
    · rw [if_neg hp] at h
      injection h with h1 h2
      subst h1
      simpa [Bool.not_eq_true] using hp

theorem pyStrip_prefix_dropWhile (l : List Char) :
    pyStrip l <+: List.dropWhile isPySpace l := by
  have h := List.reverse_prefix.mpr
    (List.dropWhile_suffix (l := (List.dropWhile isPySpace l).reverse) isPySpace)
  unfold pyStrip
  simpa using h

theorem pyStrip_head_false (l : List Char) (a : Char) (t : List Char)
    (h : pyStrip l = a :: t) : isPySpace a = false := by
  obtain ⟨k, hk⟩ := pyStrip_prefix_dropWhile l
  rw [h] at hk
  exact dropWhile_head_false isPySpace l a (t ++ k) (by rw [← hk]; simp)

theorem pyStrip_last_false (l : List Char) (t : List Char) (b : Char)
    (h : pyStrip l = t ++ [b]) : isPySpace b = false := by
  have h2 : List.dropWhile isPySpace ((List.dropWhile isPySpace l).reverse)
      = b :: t.reverse := by
    have h3 : (pyStrip l).reverse = b :: t.reverse := by rw [h]; simp
    unfold pyStrip at h3
    simpa using h3
  exact dropWhile_head_false isPySpace _ b t.reverse h2

theorem pyStrip_singleton (a : Char) (ha : isPySpace a = false) :
    pyStrip [a] = [a] := by
  unfold pyStrip
  rw [List.dropWhile_cons]
  simp [ha, List.dropWhile_cons]

theorem pyStrip_idem (l : List Char) : pyStrip (pyStrip l) = pyStrip l := by
  cases hZ : pyStrip l with
  | nil => rfl
  | cons a t =>
    have ha : isPySpace a = false := pyStrip_head_false l a t hZ
    rcases t.eq_nil_or_concat with rfl | ⟨t', b, ht⟩
    · exact pyStrip_singleton a ha
    · subst ht
      have hb : isPySpace b = false :=
        pyStrip_last_false l (a :: t') b (by rw [hZ]; simp)
      simp only [List.concat_eq_append]
      exact pyStrip_no_ws_ends a b t' ha hb

/-! Concrete payloads and backend doubles used to instantiate the claim
theorems on explicit inputs. -/

/-- A representative request payload. -/
def samplePayload : DietRequest where
  profile := { prakriti := ⟨3, 4, 5⟩, vikriti := ⟨7, 3, 2⟩ }
  health := { agni := ("weak"), ama := ("moderate") }
  dietPreferences :=
    { dietType := ("vegetarian"), allergies := [("Dairy")], cuisine := [("North Indian")] }
  environment := { season := ("winter") }
  goals := { primaryGoal := ("Improve digestion") }

/-- The sample payload with no allergy and no cuisine preference. -/
def samplePayloadPlain : DietRequest where
  profile := { prakriti := ⟨3, 4, 5⟩, vikriti := ⟨7, 3, 2⟩ }
  health := { agni := ("weak"), ama := ("moderate") }
  dietPreferences := { dietType := ("vegetarian"), allergies := [], cuisine := [] }
  environment := { season := ("winter") }
  goals := { primaryGoal := ("Improve digestion") }

/-- Metadata of a sample retrievable record. -/
def sampleFood : FoodMetadata where
  dishName := some ("Steamed Rice")
  category := some ("Grains")
  allergenInfo := some ("None")

/-- An embedding backend that succeeds. -/
def encodeOk : String → Except String Unit := fun _ => Except.ok ()

/-- An embedding backend that raises. -/
def encodeFail : String → Except String Unit := fun _ => Except.error ("embedding failure")

/-- A knowledge store that returns no match. -/
def ksEmpty : Unit → Nat → Option (List String) → Except String (List (QueryMatch Unit)) :=
  fun _ _ _ => Except.ok []

/-- A knowledge store whose query raises. -/
def ksFail : Unit → Nat → Option (List String) → Except String (List (QueryMatch Unit)) :=
  fun _ _ _ => Except.error ("store failure")

/-- A knowledge store that returns the sample record. -/
def ksOne : Unit → Nat → Option (List String) → Except String (List (QueryMatch Unit)) :=
  fun _ _ _ => Except.ok [⟨(), sampleFood⟩]

/-- A knowledge store that returns the sample record exactly when it
satisfies the filter it was given, so it honors the filter semantics. -/
def ksHonest : Unit → Nat → Option (List String) → Except String (List (QueryMatch Unit)) :=
  fun _ _ f => Except.ok (List.filter (fun qm => satisfiesFilter f qm.metadata) [⟨(), sampleFood⟩])

/-- A generative backend returning a JSON object unrelated to the result
schema. -/
def generateFoo : String → Except String String :=
  fun _ => Except.ok ("\x7b\"foo\": 1\x7d")

/-- A generative backend returning text that is not JSON. -/
def generateBadText : String → Except String String :=
  fun _ => Except.ok ("I am not JSON")

/-- A generative backend returning a fixed plain string document. -/
def generateConst : String → Except String String :=
  fun _ => Except.ok ("\"ok\"")

/-! Helper lemmas about the orchestrator and the generation client. -/

theorem retrieveSuitableFoods_cases {V S E : Type} (encode : String → Except E V)
    (ksQuery : V → Nat → Option (List String) → Except E (List (QueryMatch S)))
    (p : DietRequest) (top_k : Nat) (foods : List FoodMetadata)
    (hret : retrieveSuitableFoods encode ksQuery p top_k = Except.ok foods) :
    foods = []
    ∨ ∃ v ms, encode (searchQuery p) = Except.ok v
        ∧ ksQuery v top_k (metadataFilter p.dietPreferences.allergies) = Except.ok ms
        ∧ foods = ms.map (fun m => m.metadata) := by
  simp only [retrieveSuitableFoods] at hret
  split at hret
  next e he => exact absurd hret (by simp)
  next v hv =>
    split at hret
    next ms hq =>
      right
      refine ⟨v, ms, hv, hq, ?_⟩
      injection hret with h
      exact h.symm
    next e hq =>
      left
      injection hret with h
      exact h.symm

theorem get_diet_plan_nonempty {V S E : Type} (encode : String → Except E V)
    (ksQuery : V → Nat → Option (List String) → Except E (List (QueryMatch S)))
    (generate : String → Except E String) (p : DietRequest) (foods : List FoodMetadata)
    (hret : retrieveSuitableFoods encode ksQuery p 15 = Except.ok foods)
    (hne : foods.isEmpty = false) :
    get_diet_plan encode ksQuery generate p
      = Except.ok (generateGuidelines generate (buildPrompt p foods)) := by
  unfold get_diet_plan
  rw [hret]
  simp [hne]

theorem generateGuidelines_of_error {E : Type} (generate : String → Except E String)
    (prompt : String) (e : E) (hg : generate prompt = Except.error e) :
    generateGuidelines generate prompt = genErrorObj := by
  unfold generateGuidelines
  rw [hg]

theorem generateGuidelines_of_parse_fail {E : Type} (generate : String → Except E String)
    (prompt t : String) (hg : generate prompt = Except.ok t)
    (hj : json_loads (normalizeResponse t) = none) :
    generateGuidelines generate prompt = genErrorObj := by
  unfold generateGuidelines
  rw [hg]
  simp [hj]

theorem generateGuidelines_of_parse_ok {E : Type} (generate : String → Except E String)
    (prompt t : String) (j : Json) (hg : generate prompt = Except.ok t)
    (hj : json_loads (normalizeResponse t) = some j) :
    generateGuidelines generate prompt = j := by
  unfold generateGuidelines
  rw [hg]
  simp [hj]

/-! Claim theorems. -/

/-- C1: the prompt-assembly step does not exclude the primary dosha from
the secondary list.  At the failing input of the claim, vikriti with vata
7, pitta 3 and kapha 2, the code computes the secondary list Vata, Pitta,
Kapha, because the filter compares a lower-case key with the capitalized
primary and therefore never removes anything; the claimed value Pitta,
Kapha is refuted. -/
theorem C1_secondary_doshas_include_primary :
    secondaryDoshas ⟨7, 3, 2⟩ = [("Vata"), ("Pitta"), ("Kapha")]
    ∧ secondaryDoshas ⟨7, 3, 2⟩ ≠ [("Pitta"), ("Kapha")] :=
  ⟨by decide, by decide⟩

/-- C2 counterexample: an error raised by the Embedding Provider during
retrieval is not caught inside the retriever; it propagates out of the
function, refuting the claim that any embedding or store error is
converted to an empty result. -/
theorem C2_embedding_error_not_caught :
    retrieveSuitableFoods encodeFail ksEmpty samplePayload 15
      = Except.error ("embedding failure") := rfl

/-- C2 (amended): an error raised by the Knowledge Store query is caught
and converted to an empty retrieval result, but an error raised by the
Embedding Provider encode call propagates out of the retriever
unchanged. -/
theorem C2_retrieval_error_policy {V S E : Type}
    (encode : String → Except E V)
    (ksQuery : V → Nat → Option (List String) → Except E (List (QueryMatch S)))
    (p : DietRequest) (top_k : Nat) :
    (∀ v e, encode (searchQuery p) = Except.ok v →
        ksQuery v top_k (metadataFilter p.dietPreferences.allergies) = Except.error e →
        retrieveSuitableFoods encode ksQuery p top_k = Except.ok [])
    ∧ (∀ e, encode (searchQuery p) = Except.error e →
        retrieveSuitableFoods encode ksQuery p top_k = Except.error e) := by
  constructor
  · intro v e hv hq
    simp only [retrieveSuitableFoods]
    rw [hv]
    simp [hq]
  · intro e he
    simp only [retrieveSuitableFoods]
    rw [he]

/-- Witness for C2: a failing store query yields the empty result while a
failing encode call yields a propagated error, on the sample payload. -/
theorem C2_retrieval_error_policy_witness :
    retrieveSuitableFoods encodeOk ksFail samplePayload 15 = Except.ok []
    ∧ retrieveSuitableFoods encodeFail ksEmpty samplePayload 15
        = Except.error ("embedding failure") :=
  ⟨(C2_retrieval_error_policy encodeOk ksFail samplePayload 15).1 () ("store failure") rfl rfl,
   (C2_retrieval_error_policy encodeFail ksEmpty samplePayload 15).2 ("embedding failure") rfl⟩

/-- C3: when retrieval returns an empty candidate list, the orchestrator
returns exactly the fixed retrieval error object, and the result is the
same for every generation backend, so neither the prompt assembler nor
the generative backend can influence it. -/
theorem C3_empty_retrieval_short_circuits {V S E : Type}
    (encode : String → Except E V)
    (ksQuery : V → Nat → Option (List String) → Except E (List (QueryMatch S)))
    (p : DietRequest)
    (h : retrieveSuitableFoods encode ksQuery p 15 = Except.ok []) :
    ∀ generate : String → Except E String,
      get_diet_plan encode ksQuery generate p = Except.ok retrievalErrorObj := by
  intro g
  unfold get_diet_plan
  rw [h]
  rfl

/-- Witness for C3: on the sample payload with an empty knowledge store,
the orchestrator returns the retrieval error object. -/
theorem C3_empty_retrieval_short_circuits_witness :
    get_diet_plan encodeOk ksEmpty generateConst samplePayload
      = Except.ok retrievalErrorObj :=
  C3_empty_retrieval_short_circuits encodeOk ksEmpty samplePayload rfl generateConst

/-- C9: the two terminal error objects of the orchestrator are
distinguishable by the presence of the message key: the empty-retrieval
object carries one, the generation-failure object does not, while both
carry the error key. -/
theorem C9_error_objects_distinguished_by_message_key :
    (jsonLookup retrievalErrorObj ("message")).isSome = true
    ∧ (jsonLookup genErrorObj ("message")).isSome = false
    ∧ (jsonLookup retrievalErrorObj ("error")).isSome = true
    ∧ (jsonLookup genErrorObj ("error")).isSome = true :=
  ⟨by decide, by decide, by decide, by decide⟩

/-- C4 counterexample: with a successful retrieval and a backend whose
response parses to a JSON object unrelated to the result schema, the
orchestrator returns that object as a success: it is neither a plan
conforming to the result schema nor an error object, refuting the claimed
two-shape contract. -/
theorem C4_unvalidated_output_counterexample :
    get_diet_plan encodeOk ksOne generateFoo samplePayload
      = Except.ok (Json.obj [(("foo"), Json.num 1)])
    ∧ spec_isErrorObject (Json.obj [(("foo"), Json.num 1)]) = false
    ∧ spec_conformsResultSchema (Json.obj [(("foo"), Json.num 1)]) = false :=
  ⟨rfl, rfl, rfl⟩

/-- C4 (amended): every call returns one of four shapes: a propagated
retrieval exception, the fixed empty-retrieval error object, the fixed
generation-failure error object, or the JSON value the backend response
parsed to, returned without any validation against the result schema. -/
theorem C4_result_shapes {V S E : Type} (encode : String → Except E V)
    (ksQuery : V → Nat → Option (List String) → Except E (List (QueryMatch S)))
    (generate : String → Except E String) (p : DietRequest) :
    (∃ e, get_diet_plan encode ksQuery generate p = Except.error e)
    ∨ get_diet_plan encode ksQuery generate p = Except.ok retrievalErrorObj
    ∨ get_diet_plan encode ksQuery generate p = Except.ok genErrorObj
    ∨ (∃ foods t j, retrieveSuitableFoods encode ksQuery p 15 = Except.ok foods
        ∧ generate (buildPrompt p foods) = Except.ok t
        ∧ json_loads (normalizeResponse t) = some j
        ∧ get_diet_plan encode ksQuery generate p = Except.ok j) := by
  cases hr : retrieveSuitableFoods encode ksQuery p 15 with
  | error e =>
    left
    exact ⟨e, by unfold get_diet_plan; rw [hr]⟩
  | ok foods =>
    cases hemp : foods.isEmpty with
    | true =>
      right; left
      unfold get_diet_plan
      rw [hr]
      simp [hemp]
    | false =>
      have hmain := get_diet_plan_nonempty encode ksQuery generate p foods hr hemp
      cases hg : generate (buildPrompt p foods) with
      | error e =>
        right; right; left
        rw [hmain, generateGuidelines_of_error generate _ e hg]
      | ok t =>
        cases hj : json_loads (normalizeResponse t) with
        | none =>
          right; right; left
          rw [hmain, generateGuidelines_of_parse_fail generate _ t hg hj]
        | some j =>
          right; right; right
          exact ⟨foods, t, j, rfl, hg, hj,
            by rw [hmain, generateGuidelines_of_parse_ok generate _ t j hg hj]⟩

/-- C5: when the backend invocation fails, or its response text fails to
parse as JSON after normalization, the generation client returns exactly
the fixed generation error object, and the orchestrator propagates that
object unchanged as its own result. -/
theorem C5_generation_failure_policy {V S E : Type} (encode : String → Except E V)
    (ksQuery : V → Nat → Option (List String) → Except E (List (QueryMatch S)))
    (generate : String → Except E String) (p : DietRequest) (foods : List FoodMetadata)
    (hret : retrieveSuitableFoods encode ksQuery p 15 = Except.ok foods)
    (hne : foods.isEmpty = false)
    (hfail : (∃ e, generate (buildPrompt p foods) = Except.error e)
      ∨ (∃ t, generate (buildPrompt p foods) = Except.ok t
           ∧ json_loads (normalizeResponse t) = none)) :
    generateGuidelines generate (buildPrompt p foods) = genErrorObj
    ∧ get_diet_plan encode ksQuery generate p = Except.ok genErrorObj := by
  have hgen : generateGuidelines generate (buildPrompt p foods) = genErrorObj := by
    rcases hfail with ⟨e, hg⟩ | ⟨t, hg, hj⟩
    · exact generateGuidelines_of_error generate _ e hg
    · exact generateGuidelines_of_parse_fail generate _ t hg hj
  refine ⟨hgen, ?_⟩
  rw [get_diet_plan_nonempty encode ksQuery generate p foods hret hne, hgen]

/-- Witness for C5: a backend answering prose that is not JSON makes the
client, and then the orchestrator, return the generation error object. -/
theorem C5_generation_failure_policy_witness :
    generateGuidelines generateBadText (buildPrompt samplePayload [sampleFood]) = genErrorObj
    ∧ get_diet_plan encodeOk ksOne generateBadText samplePayload = Except.ok genErrorObj :=
  C5_generation_failure_policy encodeOk ksOne generateBadText samplePayload [sampleFood]
    rfl rfl (Or.inr ⟨("I am not JSON"), rfl, rfl⟩)

/-- C6: assuming the knowledge store honors the metadata filter it is
given, every candidate the retriever returns has an allergen field outside
the allergy set; when the allergy set is empty no filter is sent at all,
and when it is non-empty the filter list is exactly the allergy set. -/
theorem C6_allergen_exclusion {V S E : Type} (encode : String → Except E V)
    (ksQuery : V → Nat → Option (List String) → Except E (List (QueryMatch S)))
    (p : DietRequest) (top_k : Nat) (foods : List FoodMetadata)
    (hhonor : ∀ v k f ms, ksQuery v k f = Except.ok ms →
        ∀ m ∈ ms, satisfiesFilter f m.metadata = true)
    (hret : retrieveSuitableFoods encode ksQuery p top_k = Except.ok foods) :
    (∀ m ∈ foods, ∀ a, m.allergenInfo = some a → a ∉ p.dietPreferences.allergies)
    ∧ (p.dietPreferences.allergies = [] →
        metadataFilter p.dietPreferences.allergies = none)
    ∧ (∀ l, metadataFilter p.dietPreferences.allergies = some l →
        l = p.dietPreferences.allergies) := by
  refine ⟨?_, ?_, ?_⟩
  · rcases retrieveSuitableFoods_cases encode ksQuery p top_k foods hret with
      hnil | ⟨v, ms, hv, hq, hfoods⟩
    · subst hnil
      intro m hm
      simp at hm
    · subst hfoods
      intro m hm a ha hmem
      obtain ⟨qm, hqm, rfl⟩ := List.mem_map.mp hm
      have hsat := hhonor v top_k _ ms hq qm hqm
      have hnonempty : p.dietPreferences.allergies.isEmpty = false := by
        cases hallergies : p.dietPreferences.allergies with
        | nil => rw [hallergies] at hmem; simp at hmem
        | cons x xs => rfl
      have hf : metadataFilter p.dietPreferences.allergies
          = some p.dietPreferences.allergies := by
        unfold metadataFilter
        simp [hnonempty]
      rw [hf] at hsat
      simp only [satisfiesFilter, ha] at hsat
      simp at hsat
      exact hsat hmem
  · intro h
    simp [metadataFilter, h]
  · intro l hl
    unfold metadataFilter at hl
    by_cases hc : p.dietPreferences.allergies.isEmpty
    · rw [if_pos hc] at hl
      exact absurd hl (by simp)
    · rw [if_neg hc] at hl
      injection hl with h
      exact h.symm

/-- Witness for C6: with an honest store double and the sample payload,
the retrieved sample record has an allergen outside the allergy set, and
the filter list sent is exactly the allergy set. -/
theorem C6_allergen_exclusion_witness :
    (("None") : String) ∉ samplePayload.dietPreferences.allergies
    ∧ [(("Dairy") : String)] = samplePayload.dietPreferences.allergies := by
  have h := C6_allergen_exclusion encodeOk ksHonest samplePayload 15 [sampleFood]
    (by
      intro v k f ms hms m hm
      have hms2 : List.filter (fun qm => satisfiesFilter f qm.metadata)
          [(⟨(), sampleFood⟩ : QueryMatch Unit)] = ms := by
        injection hms
      rw [← hms2] at hm
      exact (List.mem_filter.mp hm).2)
    rfl
  exact ⟨h.1 sampleFood (by simp) ("None") rfl, h.2.2 [("Dairy")] rfl⟩

/-- A payload agreeing with the sample payload on every field the query
composer reads, and differing elsewhere. -/
def samplePayloadB : DietRequest where
  profile := { prakriti := ⟨1, 1, 1⟩, vikriti := ⟨7, 3, 2⟩ }
  health := { agni := ("weak"), ama := ("low") }
  dietPreferences :=
    { dietType := ("vegan"), allergies := [("Gluten")], cuisine := [("North Indian")] }
  environment := { season := ("winter") }
  goals := { primaryGoal := ("Improve digestion") }

/-- C8: the search query equals a function of exactly the primary vikriti
imbalance, the primary goal, the agni state, the season and the cuisine
list, with the clause naming the cuisines appended exactly when the
cuisine list is non-empty; consequently two payloads agreeing on those
fields produce the same query. -/
theorem C8_query_composer_fields (p : DietRequest) :
    searchQuery p = spec_queryOfFields (pyMaxDosha p.profile.vikriti)
        p.goals.primaryGoal p.health.agni p.environment.season
        p.dietPreferences.cuisine
    ∧ ∀ q : DietRequest,
        pyMaxDosha q.profile.vikriti = pyMaxDosha p.profile.vikriti →
        q.goals.primaryGoal = p.goals.primaryGoal →
        q.health.agni = p.health.agni →
        q.environment.season = p.environment.season →
        q.dietPreferences.cuisine = p.dietPreferences.cuisine →
        searchQuery q = searchQuery p := by
  have hall : ∀ r : DietRequest,
      searchQuery r = spec_queryOfFields (pyMaxDosha r.profile.vikriti)
        r.goals.primaryGoal r.health.agni r.environment.season
        r.dietPreferences.cuisine := fun r => rfl
  refine ⟨hall p, ?_⟩
  intro q h1 h2 h3 h4 h5
  rw [hall q, hall p, h1, h2, h3, h4, h5]

/-- Witness for C8: a payload differing from the sample payload in
prakriti, ama, diet type and allergies produces the same query. -/
theorem C8_query_composer_fields_witness :
    searchQuery samplePayloadB = searchQuery samplePayload :=
  (C8_query_composer_fields samplePayload).2 samplePayloadB rfl rfl rfl rfl rfl

/-- C10: the assembled prompt always contains the cuisine preference line
with the cuisines joined by comma and space, an empty value when the list
is empty, and when the allergy list is empty the allergies line renders
the literal text None. -/
theorem C10_prompt_lines (p : DietRequest) (foods : List FoodMetadata) :
    (∃ pre post, buildPrompt p foods
        = pre ++ ((("        - Cuisine Preference (Satmaya): ")
            ++ String.intercalate (", ") p.dietPreferences.cuisine ++ ("\n")) ++ post))
    ∧ (p.dietPreferences.allergies = [] →
        ∃ pre post, buildPrompt p foods
          = pre ++ (("        - Allergies: None\n") ++ post)) := by
  constructor
  · refine ⟨promptIntro p ++ allergiesLine p ++ dietTypeLine p, promptTail p foods, ?_⟩
    unfold buildPrompt cuisineLine
    simp only [str_assoc]
  · intro h
    refine ⟨promptIntro p, dietTypeLine p ++ (cuisineLine p ++ promptTail p foods), ?_⟩
    unfold buildPrompt allergiesLine allergiesRendered
    rw [h]
    simp only [str_assoc]
    rfl

/-- Witness for C10: on the payload with no allergy and no cuisine, the
prompt contains the cuisine line with an empty value and the allergies
line rendering None. -/
theorem C10_prompt_lines_witness :
    (∃ pre post, buildPrompt samplePayloadPlain []
        = pre ++ ((("        - Cuisine Preference (Satmaya): ")
            ++ String.intercalate (", ") samplePayloadPlain.dietPreferences.cuisine ++ ("\n")) ++ post))
    ∧ (∃ pre post, buildPrompt samplePayloadPlain []
        = pre ++ (("        - Allergies: None\n") ++ post)) :=
  ⟨(C10_prompt_lines samplePayloadPlain []).1,
   (C10_prompt_lines samplePayloadPlain []).2 rfl⟩

/-- C7 counterexample: for the backend response consisting of the JSON
string literal whose content is a bare fence, the client parse of the
fence-wrapped response is the empty string while the parse of the
manually stripped response is the fence itself, refuting the round-trip
claim for arbitrary response texts: normalization deletes fence markers
everywhere, not only at the ends. -/
theorem C7_fence_roundtrip_counterexample :
    json_loads (normalizeResponse (("```json\n") ++ (("\"```\"") ++ ("\n```"))))
      = some (Json.str (""))
    ∧ json_loads ("\"```\"") = some (Json.str ("```"))
    ∧ some (Json.str ("")) ≠ some (Json.str ("```")) := by
  refine ⟨rfl, rfl, ?_⟩
  intro hc
  injection hc with hc2
  injection hc2 with hc3
  exact absurd hc3 (by decide)

/-- C7 (amended): for every backend response containing no backtick
character, wrapping it in json code-fence markers does not change the
generation client parse: the normalized wrapped response equals the
normalized bare response, hence both parse to the same value. -/
theorem C7_fence_roundtrip (r : String) (h : Char.ofNat 96 ∉ r.data) :
    normalizeResponse (("```json\n") ++ (r ++ ("\n```"))) = normalizeResponse r
    ∧ json_loads (normalizeResponse (("```json\n") ++ (r ++ ("\n```"))))
        = json_loads (normalizeResponse r) := by
  have hnl : isPySpace '\n' = true := rfl
  have hbt : isPySpace (Char.ofNat 96) = false := rfl
  have hp7 : (("```json").data).head? = some (Char.ofNat 96) := rfl
  have hp3 : (("```").data).head? = some (Char.ofNat 96) := rfl
  have hne7 : ("```json").data ≠ [] := by decide
  have hl1 : ∀ c ∈ ('\n' :: (r.data ++ ['\n'])), c ≠ Char.ofNat 96 := by
    intro c hc he
    subst he
    rcases List.mem_cons.mp hc with h1 | h1
    · exact absurd h1.symm (by decide)
    · rcases List.mem_append.mp h1 with h2 | h2
      · exact h h2
      · rcases List.mem_singleton.mp h2 with h3
        exact absurd h3.symm (by decide)
  have hdata : (("```json\n") ++ (r ++ ("\n```"))).data
      = ("```json\n").data ++ (r.data ++ ("\n```").data) := by
    rw [str_data_append, str_data_append]
  have hstrip1 : pyStrip (("```json\n").data ++ (r.data ++ ("\n```").data))
      = ("```json\n").data ++ (r.data ++ ("\n```").data) := by
    have hshape : ("```json\n").data ++ (r.data ++ ("\n```").data)
        = Char.ofNat 96
            :: ((("``json\n").data ++ (r.data ++ ("\n``").data)) ++ [Char.ofNat 96]) := by
      have e1 : ("```json\n").data = Char.ofNat 96 :: ("``json\n").data := rfl
      have e2 : ("\n```").data = ("\n``").data ++ [Char.ofNat 96] := rfl
      rw [e1, e2]
      simp [List.append_assoc]
    rw [hshape, pyStrip_no_ws_ends _ _ _ hbt hbt]
  have hdel7 : pyDeleteAll (("```json").data)
      (("```json\n").data ++ (r.data ++ ("\n```").data))
      = ('\n' :: (r.data ++ ['\n'])) ++ ("```").data := by
    have e3 : ("```json\n").data ++ (r.data ++ ("\n```").data)
        = ("```json").data ++ (('\n' :: (r.data ++ ['\n'])) ++ ("```").data) := by
      have e4 : ("```json\n").data = ("```json").data ++ ['\n'] := rfl
      have e5 : ("\n```").data = '\n' :: ("```").data := rfl
      rw [e4, e5]
      simp [List.append_assoc]
    have e6 : pyDeleteAllAux (("```json").data) 0 (("```").data) = ("```").data := rfl
    rw [e3]
    unfold pyDeleteAll
    rw [pyDeleteAllAux_head_match _ hne7, pyDeleteAllAux_emit _ hp7 _ _ hl1, e6]
  have hdel3 : pyDeleteAll (("```").data)
      (('\n' :: (r.data ++ ['\n'])) ++ ("```").data)
      = '\n' :: (r.data ++ ['\n']) := by
    have e7 : pyDeleteAllAux (("```").data) 0 (("```").data) = [] := rfl
    unfold pyDeleteAll
    rw [pyDeleteAllAux_emit _ hp3 _ _ hl1, e7, List.append_nil]
  have hstrip2 : pyStrip ('\n' :: (r.data ++ ['\n'])) = pyStrip r.data := by
    rw [pyStrip_cons_ws '\n' hnl, pyStrip_append_ws '\n' hnl]
  have hbare : normalizeResponse r = String.mk (pyStrip r.data) := by
    have hmem : ∀ c ∈ pyStrip r.data, c ≠ Char.ofNat 96 :=
      fun c hc he => h (he ▸ pyStrip_mem r.data c hc)
    unfold normalizeResponse pyDeleteAll
    rw [pyDeleteAllAux_id _ hp7 _ hmem, pyDeleteAllAux_id _ hp3 _ hmem, pyStrip_idem]
  have hmain : normalizeResponse (("```json\n") ++ (r ++ ("\n```")))
      = normalizeResponse r := by
    rw [hbare]
    unfold normalizeResponse
    rw [hdata, hstrip1, hdel7, hdel3, hstrip2]
  exact ⟨hmain, by rw [hmain]⟩

/-- Witness for C7: the plain numeral response contains no backtick and
normalizes identically with and without the fence wrapper. -/
theorem C7_fence_roundtrip_witness :
    (Char.ofNat 96 ∉ ("42" : String).data)
    ∧ normalizeResponse (("```json\n") ++ (("42") ++ ("\n```"))) = normalizeResponse ("42") :=
  ⟨by decide, (C7_fence_roundtrip ("42") (by decide)).1⟩

end Babayogi
